import Mathlib

/-!
Shallow embedding of the Deck-Link pairing protocol core
(`src/deck_link/protocol.py` and `src/deck_link/server.py`).

The embedding models the data (message envelope, connection session, peer)
and the message handlers of `DeckLinkServer` as pure functions from a
server state and an inbound message to a new server state plus a list of
observable effects (outbound sends, UI events, log lines, task control).
Nondeterministic inputs of the Python code (generated UUIDs via
`uuid.uuid4()`, wall-clock times via `time.time()`, the generated
passphrase from the external `passphrase` module, the websocket handle)
are threaded as explicit parameters.
-/

namespace DeckLink

/-- `MessageType` from protocol.py: the enumerated wire tag.  The Python
enum is a `str` enum; `value` below gives the string value of each tag. -/
inductive MessageType where
  | connection_request
  | challenge_response
  | auth_attempt
  | auth_result
  | ping
  | pong
  | disconnect
  | file_transfer
  | keyboard_input
  | controller_input
  | audio_stream
  | notification
  | error
  deriving DecidableEq, Repr

/-- The string value of each `MessageType` member, as declared in protocol.py. -/
def MessageType.value : MessageType → String
  | .connection_request => "connection_request"
  | .challenge_response => "challenge_response"
  | .auth_attempt => "auth_attempt"
  | .auth_result => "auth_result"
  | .ping => "ping"
  | .pong => "pong"
  | .disconnect => "disconnect"
  | .file_transfer => "file_transfer"
  | .keyboard_input => "keyboard_input"
  | .controller_input => "controller_input"
  | .audio_stream => "audio_stream"
  | .notification => "notification"
  | .error => "error"

/-- `ConnectionState` from protocol.py. -/
inductive ConnectionState where
  | disconnected
  | awaiting_challenge
  | challenge_sent
  | awaiting_auth_input
  | connected
  | error
  deriving DecidableEq, Repr

/-- The string value of each `ConnectionState` member, as declared in protocol.py. -/
def ConnectionState.value : ConnectionState → String
  | .disconnected => "disconnected"
  | .awaiting_challenge => "awaiting_challenge"
  | .challenge_sent => "challenge_sent"
  | .awaiting_auth_input => "awaiting_auth_input"
  | .connected => "connected"
  | .error => "error"

/-- A Python value as it may appear in a message payload (`dict[str, Any]`).
Floats are carried by their IEEE-754 double bit pattern (a `Nat < 2^64`),
which is what the binary wire format transmits verbatim. -/
inductive PValue where
  | str (s : String)
  | int (n : Int)
  | bool (b : Bool)
  | float (bits : Nat)
  | none
  deriving DecidableEq, Repr

/-- Python truthiness of a payload value (`if success:` in
`_handle_auth_result` applies this to an arbitrary payload entry).
A float is falsy exactly when it is positive or negative zero
(bit patterns 0 and 2^63). -/
def PValue.truthy : PValue → Bool
  | .str s => s ≠ ""
  | .int n => n ≠ 0
  | .bool b => b
  | .float bits => bits ≠ 0 && bits ≠ 2 ^ 63
  | .none => false

/-- `dict.get(key, default)` on a payload (association list, first match). -/
def payloadGet (payload : List (String × PValue)) (key : String) (dflt : PValue) :
    PValue :=
  match payload.find? (fun kv => kv.1 = key) with
  | some kv => kv.2
  | Option.none => dflt

/-- The `Message` envelope from protocol.py: a type tag, a session id
(a UUID string), a timestamp (a Python float, carried as its bit pattern)
and an open payload mapping. -/
structure Message where
  type : MessageType
  session_id : String
  timestamp : Nat
  payload : List (String × PValue)
  deriving DecidableEq, Repr

/-- `PeerInfo` from server.py.  The websocket handle is modelled as an
optional numeric identifier.  `name`, `ip` and `port` hold whatever Python
value was passed in (the handlers fill them from `payload.get` results). -/
structure PeerInfo where
  name : PValue
  ip : PValue
  port : PValue
  websocket : Option Nat
  deriving DecidableEq, Repr

/-- `ConnectionSession` from server.py (its unused `state` field defaults to
DISCONNECTED and is never read or written by the handlers; it is kept for
fidelity). -/
structure ConnectionSession where
  session_id : String
  passphrase : String
  peer_info : Option PeerInfo
  state : ConnectionState := .disconnected
  deriving DecidableEq, Repr

/-- Modelled from the spec: the default `PORT` constant lives in the
package `__init__.py`, which is absent from the sources; its concrete
value is irrelevant to every claim (it is only a default for
`payload.get("sender_port", PORT)` and for `connect_to`). -/
def PORT : Int := 8765

/-- The mutable fields of `DeckLinkServer` that the handlers touch, plus the
constructor configuration (`device_name`, `port`). -/
structure ServerState where
  device_name : String
  port : Int
  state : ConnectionState
  current_session : Option ConnectionSession
  peer : Option PeerInfo
  websocket : Option Nat
  ping_task : Bool
  last_pong : Nat
  deriving DecidableEq, Repr

/-- An observable effect of a handler: an outbound websocket send, a UI
event emission, a log line, heartbeat-task control, or a socket close. -/
inductive Effect where
  | send (ws : Nat) (m : Message)
  | emit (event : String) (data : List (String × PValue))
  | log (line : String)
  | startPing
  | cancelPing
  | close (ws : Nat)
  deriving DecidableEq, Repr

/-! Message factory functions from protocol.py.  Each constructs a
`Message`; a fresh UUID `fresh` stands for `uuid.uuid4()` (used when no
session id is passed) and `now` for `time.time()` (the default timestamp). -/

/-- `connection_request` from protocol.py. -/
def connection_request (sender_name sender_ip : String) (sender_port : Int)
    (fresh : String) (now : Nat) : Message :=
  { type := .connection_request, session_id := fresh, timestamp := now,
    payload := [("sender_name", .str sender_name), ("sender_ip", .str sender_ip),
                ("sender_port", .int sender_port)] }

/-- `challenge_response` from protocol.py: carries the receiver name and a
fixed prompt; the passphrase itself is not a parameter and never appears. -/
def challenge_response (session_id receiver_name : String) (now : Nat) : Message :=
  { type := .challenge_response, session_id := session_id, timestamp := now,
    payload := [("receiver_name", .str receiver_name),
                ("message", .str "Enter the passphrase shown on the other device")] }

/-- `auth_attempt` from protocol.py. -/
def auth_attempt (session_id passphrase : String) (now : Nat) : Message :=
  { type := .auth_attempt, session_id := session_id, timestamp := now,
    payload := [("passphrase", .str passphrase)] }

/-- `auth_result` from protocol.py. -/
def auth_result (session_id : String) (success : Bool) (message : String)
    (now : Nat) : Message :=
  { type := .auth_result, session_id := session_id, timestamp := now,
    payload := [("success", .bool success), ("message", .str message)] }

/-- `ping` from protocol.py: fresh session id, empty payload. -/
def ping_msg (fresh : String) (now : Nat) : Message :=
  { type := .ping, session_id := fresh, timestamp := now, payload := [] }

/-- `pong` from protocol.py: echoes the ping's session id. -/
def pong_msg (ping_session_id : String) (now : Nat) : Message :=
  { type := .pong, session_id := ping_session_id, timestamp := now, payload := [] }

/-- `disconnect` from protocol.py (default reason). -/
def disconnect_msg (fresh : String) (now : Nat) : Message :=
  { type := .disconnect, session_id := fresh, timestamp := now,
    payload := [("reason", .str "User requested disconnect")] }

/-- `error` from protocol.py. -/
def error_msg (message code : String) (fresh : String) (now : Nat) : Message :=
  { type := .error, session_id := fresh, timestamp := now,
    payload := [("message", .str message), ("code", .str code)] }

/-! The message handlers of `DeckLinkServer` (server.py), as pure
functions `ServerState → … → ServerState × List Effect`.  Effects are
listed in the order the Python code performs them. -/

/-- `DeckLinkServer._set_state`: update the state and emit `state_changed`. -/
def set_state (st : ServerState) (s : ConnectionState) : ServerState × List Effect :=
  ({ st with state := s },
   [.emit "state_changed" [("old_state", .str st.state.value),
                           ("new_state", .str s.value)]])

/-- `DeckLinkServer._handle_connection_request`.  `gen` is the passphrase
returned by the external `generate_passphrase()`; `fresh`/`now` feed the
message constructors.  The request is rejected only when the state is
CONNECTED; otherwise a new responder session overwrites the current one. -/
def handle_connection_request (gen fresh : String) (now : Nat)
    (st : ServerState) (m : Message) (ws : Nat) : ServerState × List Effect :=
  if st.state = .connected then
    (st, [.send ws (error_msg "Already connected to another peer" "ALREADY_CONNECTED"
                      fresh now)])
  else
    let sender_name := payloadGet m.payload "sender_name" (.str "Unknown")
    let sess : ConnectionSession :=
      { session_id := m.session_id, passphrase := gen,
        peer_info := some { name := sender_name,
                            ip := payloadGet m.payload "sender_ip" (.str ""),
                            port := payloadGet m.payload "sender_port" (.int PORT),
                            websocket := some ws } }
    let st1 := { st with current_session := some sess }
    let (st2, e2) := set_state st1 .challenge_sent
    (st2, e2 ++
      [.emit "challenge_generated"
         [("session_id", .str m.session_id), ("passphrase", .str gen),
          ("peer_name", sender_name)],
       .send ws (challenge_response m.session_id st.device_name now)])

/-- `DeckLinkServer._handle_challenge_response`: only acts in state
AWAITING_CHALLENGE; otherwise logs and returns.  The session id of the
inbound message is never compared with the held session's. -/
def handle_challenge_response (st : ServerState) (m : Message) :
    ServerState × List Effect :=
  if st.state ≠ .awaiting_challenge then
    (st, [.log "Unexpected challenge response"])
  else
    let (st1, e1) := set_state st .awaiting_auth_input
    (st1, e1 ++
      [.emit "passphrase_required"
         [("session_id", .str m.session_id),
          ("peer_name", payloadGet m.payload "receiver_name" (.str "Unknown"))]])

/-- `DeckLinkServer._handle_auth_attempt`.  `validate` is the external
`validate_passphrase(candidate, expected)`. -/
def handle_auth_attempt (validate : PValue → String → Bool) (fresh : String)
    (now : Nat) (st : ServerState) (m : Message) (ws : Nat) :
    ServerState × List Effect :=
  match st.current_session with
  | Option.none =>
      (st, [.send ws (error_msg "No active session" "NO_SESSION" fresh now)])
  | some sess =>
      if m.session_id ≠ sess.session_id then
        (st, [.send ws (error_msg "Invalid session" "INVALID_SESSION" fresh now)])
      else
        let input := payloadGet m.payload "passphrase" (.str "")
        if validate input sess.passphrase then
          let st1 := { st with websocket := some ws, peer := sess.peer_info }
          let (st2, e2) := set_state st1 .connected
          (({ st2 with ping_task := true }),
           e2 ++ [.send ws (auth_result m.session_id true "Connected!" now),
                  .emit "connected"
                    [("peer_name", match sess.peer_info with
                                   | some p => p.name
                                   | Option.none => .str "Unknown"),
                     ("peer_ip", match sess.peer_info with
                                 | some p => p.ip
                                 | Option.none => .str "")],
                  .startPing])
        else
          let (st1, e1) :=
            set_state st .disconnected
          ({ st1 with current_session := Option.none },
           [.send ws (auth_result m.session_id false "Incorrect passphrase" now),
            .emit "auth_failed" [("reason", .str "Incorrect passphrase")]] ++ e1)

/-- `DeckLinkServer._handle_auth_result`: no state guard at all; the
truthiness of `payload.get("success", False)` alone decides the branch. -/
def handle_auth_result (st : ServerState) (m : Message) (ws : Nat) :
    ServerState × List Effect :=
  let success := payloadGet m.payload "success" (.bool false)
  if success.truthy then
    let st1 := { st with websocket := some ws }
    let (st2, e2) := set_state st1 .connected
    (({ st2 with ping_task := true }),
     e2 ++ [.emit "connected"
              [("peer_name", match st.peer with
                             | some p => p.name
                             | Option.none => .str "Unknown"),
               ("peer_ip", match st.peer with
                           | some p => p.ip
                           | Option.none => .str "")],
            .startPing])
  else
    let (st1, e1) := set_state st .error
    (st1, e1 ++
      [.emit "auth_failed"
         [("reason", payloadGet m.payload "message" (.str "Authentication failed"))]])

/-- `DeckLinkServer._handle_ping`: always answers with a PONG echoing the
ping's session id, regardless of state. -/
def handle_ping (now : Nat) (st : ServerState) (m : Message) (ws : Nat) :
    ServerState × List Effect :=
  (st, [.send ws (pong_msg m.session_id now)])

/-- `DeckLinkServer._handle_pong`: records `time.time()` as `_last_pong`. -/
def handle_pong (now : Nat) (st : ServerState) : ServerState × List Effect :=
  ({ st with last_pong := now }, [])

/-- `DeckLinkServer._handle_disconnect`: set state DISCONNECTED, clear
websocket/peer/session, cancel the ping task if present, emit
`disconnected`.  It runs unconditionally and always emits. -/
def handle_disconnect (st : ServerState) : ServerState × List Effect :=
  let (st1, e1) := set_state st .disconnected
  ({ st1 with websocket := Option.none, peer := Option.none,
              current_session := Option.none, ping_task := false },
   e1 ++ (if st.ping_task then [Effect.cancelPing] else []) ++
     [.emit "disconnected" []])

/-- `DeckLinkServer._handle_message`: dispatch on the message type.
Types with no branch (FILE_TRANSFER, KEYBOARD_INPUT, CONTROLLER_INPUT,
AUDIO_STREAM) are logged and ignored. -/
def handle_message (validate : PValue → String → Bool) (gen fresh : String)
    (now : Nat) (st : ServerState) (m : Message) (ws : Nat) :
    ServerState × List Effect :=
  match m.type with
  | .connection_request => handle_connection_request gen fresh now st m ws
  | .challenge_response => handle_challenge_response st m
  | .auth_attempt => handle_auth_attempt validate fresh now st m ws
  | .auth_result => handle_auth_result st m ws
  | .ping => handle_ping now st m ws
  | .pong => handle_pong now st
  | .disconnect => handle_disconnect st
  | .notification => (st, [.emit "notification" m.payload])
  | t => (st, [.log ("Unhandled message type: " ++ t.value)])

/-- `DeckLinkServer.connect_to`.  `result` is the outcome of dialling the
websocket (`Except`: an exception string, or the new socket handle).  When
the state is not DISCONNECTED the call logs and returns at once. -/
def connect_to (host : String) (port : Int) (fresh : String) (now : Nat)
    (result : Except String Nat) (st : ServerState) : ServerState × List Effect :=
  if st.state ≠ .disconnected then
    (st, [.log "Already connected or connecting"])
  else
    let (st1, e1) := set_state st .awaiting_challenge
    match result with
    | .ok ws =>
        let peer : PeerInfo :=
          { name := .str "", ip := .str host, port := .int port,
            websocket := some ws }
        let request := connection_request st.device_name "" st.port fresh now
        (({ st1 with peer := some peer,
                     current_session :=
                       some { session_id := request.session_id, passphrase := "",
                              peer_info := some peer } }),
         e1 ++ [.send ws request])
    | .error e =>
        let (st2, e2) := set_state st1 .error
        (st2, e1 ++ e2 ++ [.emit "connection_error" [("error", .str e)]])

/-- `DeckLinkServer.disconnect_peer`: best-effort DISCONNECT send and
close on the current websocket, then `_handle_disconnect()`
unconditionally. -/
def disconnect_peer (fresh : String) (now : Nat) (st : ServerState) :
    ServerState × List Effect :=
  let pre : List Effect :=
    match st.websocket with
    | some w => [.send w (disconnect_msg fresh now), .close w]
    | Option.none => []
  let (st1, e1) := handle_disconnect st
  (st1, pre ++ e1)

/-! The inbound-frame loops of server.py and the heartbeat loop. -/

/-- One inbound raw frame as the websocket iterator yields it: a frame
that decodes to a message, a frame on which `Message.from_bytes` /
`Message.from_json` raises (malformed), or the `ConnectionClosed`
exception ending the iteration. -/
inductive Frame where
  | ok (m : Message)
  | malformed
  | closed
  deriving DecidableEq, Repr

/-- The per-frame nondeterministic inputs of one `_handle_message` call:
the generated passphrase, the fresh UUID and the current time. -/
structure Supply where
  gen : String
  fresh : String
  now : Nat

/-- `DeckLinkServer._handle_connection` (the server-side receive loop).
A malformed frame raises out of the `async for`, is caught by the generic
`except` branch, which logs and calls `_handle_disconnect()`; the
remaining frames of that connection are never processed.
`ConnectionClosed` disconnects only if the closed socket is the current
`self._websocket`. -/
def handle_connection (validate : PValue → String → Bool) (supply : Nat → Supply)
    (st : ServerState) (ws : Nat) : Nat → List Frame → ServerState × List Effect
  | _, [] => (st, [])
  | k, .ok m :: rest =>
      let s := supply k
      let (st1, e1) := handle_message validate s.gen s.fresh s.now st m ws
      let (st2, e2) := handle_connection validate supply st1 ws (k + 1) rest
      (st2, e1 ++ e2)
  | _, .malformed :: _ =>
      let (st1, e1) := handle_disconnect st
      (st1, Effect.log "Error handling connection" :: e1)
  | _, .closed :: _ =>
      if st.websocket = some ws then
        let (st1, e1) := handle_disconnect st
        (st1, Effect.log "Connection closed" :: e1)
      else
        (st, [Effect.log "Connection closed"])

/-- `DeckLinkServer._client_listen` (the client-side receive loop): same
structure, but `ConnectionClosed` calls `_handle_disconnect()`
unconditionally. -/
def client_listen (validate : PValue → String → Bool) (supply : Nat → Supply)
    (st : ServerState) (ws : Nat) : Nat → List Frame → ServerState × List Effect
  | _, [] => (st, [])
  | k, .ok m :: rest =>
      let s := supply k
      let (st1, e1) := handle_message validate s.gen s.fresh s.now st m ws
      let (st2, e2) := client_listen validate supply st1 ws (k + 1) rest
      (st2, e1 ++ e2)
  | _, .malformed :: _ =>
      let (st1, e1) := handle_disconnect st
      (st1, Effect.log "Client error" :: e1)
  | _, .closed :: _ =>
      let (st1, e1) := handle_disconnect st
      (st1, Effect.log "Client connection closed" :: e1)

/-- One pass of the `ping_loop` body inside
`DeckLinkServer._start_ping_loop`, entered at wall-clock time `t` with the
loop guard already checked for socket `w`:
`self._last_pong = time.time()` (= `t`), send a PING, sleep 5 time units
(PONGs handled during the sleep each overwrite `_last_pong` with their
handling time, listed in `pongs`), then test
`time.time() - self._last_pong > 10` and disconnect-and-break if it
holds.  Returns the state, the effects, and whether the loop broke. -/
def ping_iteration (fresh : String) (t : Nat) (pongs : List Nat)
    (st : ServerState) (w : Nat) : ServerState × List Effect × Bool :=
  let st1 := { st with last_pong := t }
  let st2 := pongs.foldl (fun s tp => { s with last_pong := tp }) st1
  if t + 5 - st2.last_pong > 10 then
    let (st3, e3) := handle_disconnect st2
    (st3, Effect.send w (ping_msg fresh t) :: e3, true)
  else
    (st2, [Effect.send w (ping_msg fresh t)], false)

/-- The `ping_loop` of `_start_ping_loop`, run for `fuel` iterations
starting at time `t0`.  `freshs k` is the UUID of the `k`-th PING and
`pongs k` the handling times of PONGs arriving during the `k`-th sleep.
The loop exits when the guard `state == CONNECTED and websocket` fails or
an iteration breaks. -/
def ping_loop (freshs : Nat → String) (pongs : Nat → List Nat) :
    Nat → Nat → Nat → ServerState → ServerState × List Effect
  | 0, _, _, st => (st, [])
  | fuel + 1, k, t, st =>
      match st.websocket with
      | Option.none => (st, [])
      | some w =>
          if st.state = .connected then
            let (st1, e1, broke) := ping_iteration (freshs k) t (pongs k) st w
            if broke then (st1, e1)
            else
              let (st2, e2) := ping_loop freshs pongs fuel (k + 1) (t + 5) st1
              (st2, e1 ++ e2)
          else (st, [])

/-! The message codec (protocol.py `Message.to_bytes`/`from_bytes` and
`to_json`/`from_json`).  Both representations are modelled at the level of
the value tree the external serializer transports: `to_bytes` is
`msgpack.packb(self.model_dump())`, so its repository-owned content is the
`model_dump` mapping into the msgpack data model and the pydantic
validation `Message(**unpacked)` on the way back; `msgpack.packb` /
`msgpack.unpackb` (an inverse pair on that data model) are the external
library.  Likewise `to_json` is `model_dump_json` into the JSON data model
and `model_validate_json` back. -/

/-- A msgpack value (the data model `msgpack.packb` serializes).  Floats
are float64 bit patterns, transported verbatim by the wire format. -/
inductive MPValue where
  | nil
  | bool (b : Bool)
  | int (n : Int)
  | float (bits : Nat)
  | str (s : String)
  | bin (bytes : List Nat)
  | arr (xs : List MPValue)
  | map (kvs : List (MPValue × MPValue))

/-- Embedding a payload value into the msgpack data model (Python `None`,
`bool`, `int`, `float`, `str` pack to the corresponding msgpack values;
a str-subclass enum packs as its string content). -/
def PValue.toMP : PValue → MPValue
  | .str s => .str s
  | .int n => .int n
  | .bool b => .bool b
  | .float bits => .float bits
  | .none => .nil

/-- `Message.model_dump()` as packed by msgpack: a four-key map holding the
type tag's string value, the session id, the float timestamp and the
payload dict, in field-declaration order. -/
def Message.model_dump (m : Message) : MPValue :=
  .map [(.str "type", .str m.type.value),
        (.str "session_id", .str m.session_id),
        (.str "timestamp", .float m.timestamp),
        (.str "payload", .map (m.payload.map fun kv => (.str kv.1, kv.2.toMP)))]

/-- Parsing a `MessageType` from its string value (the pydantic coercion
of a string onto the str-enum). -/
def MessageType.ofValue (s : String) : Option MessageType :=
  if s = "connection_request" then some .connection_request
  else if s = "challenge_response" then some .challenge_response
  else if s = "auth_attempt" then some .auth_attempt
  else if s = "auth_result" then some .auth_result
  else if s = "ping" then some .ping
  else if s = "pong" then some .pong
  else if s = "disconnect" then some .disconnect
  else if s = "file_transfer" then some .file_transfer
  else if s = "keyboard_input" then some .keyboard_input
  else if s = "controller_input" then some .controller_input
  else if s = "audio_stream" then some .audio_stream
  else if s = "notification" then some .notification
  else if s = "error" then some .error
  else Option.none

/-- Reading a payload value back from the msgpack data model (inverse of
`PValue.toMP` on the scalar values the envelope's defined fields use). -/
def MPValue.toPValue : MPValue → Option PValue
  | .nil => some .none
  | .bool b => some (.bool b)
  | .int n => some (.int n)
  | .float bits => some (.float bits)
  | .str s => some (.str s)
  | _ => Option.none

/-- Reading a payload dict back: every key must be a string; values
convert elementwise. -/
def mpPayload : List (MPValue × MPValue) → Option (List (String × PValue))
  | [] => some []
  | (MPValue.str k, v) :: rest => do
      let v' ← v.toPValue
      let rest' ← mpPayload rest
      pure ((k, v') :: rest')
  | _ => Option.none

/-- Whether a msgpack value is the string `s` (key comparison). -/
def MPValue.isStr (v : MPValue) (s : String) : Bool :=
  match v with
  | .str t => t = s
  | _ => false

/-- Dict lookup in an unpacked msgpack map. -/
def mpLookup (kvs : List (MPValue × MPValue)) (key : String) : Option MPValue :=
  match kvs.find? (fun kv => kv.1.isStr key) with
  | some kv => some kv.2
  | Option.none => Option.none

/-- `Message.from_bytes` after the external `msgpack.unpackb`: the pydantic
validation `Message(**unpacked)` of the unpacked value tree against the
envelope schema. -/
def message_from_mp (v : MPValue) : Option Message :=
  match v with
  | .map kvs => do
      let MPValue.str tstr ← mpLookup kvs "type" | Option.none
      let t ← MessageType.ofValue tstr
      let MPValue.str sid ← mpLookup kvs "session_id" | Option.none
      let MPValue.float ts ← mpLookup kvs "timestamp" | Option.none
      let MPValue.map pl ← mpLookup kvs "payload" | Option.none
      let payload ← mpPayload pl
      pure { type := t, session_id := sid, timestamp := ts, payload := payload }
  | _ => Option.none

/-- A JSON value (the data model `model_dump_json` serializes and
`model_validate_json` parses).  A JSON number is an integer literal or a
float (kept as its float64 bit pattern, which the shortest-round-trip
decimal printing of the serializer transports losslessly). -/
inductive JValue where
  | null
  | jbool (b : Bool)
  | jint (n : Int)
  | jfloat (bits : Nat)
  | jstr (s : String)
  | jarr (xs : List JValue)
  | jobj (kvs : List (String × JValue))

/-- Embedding a payload value into the JSON data model. -/
def PValue.toJson : PValue → JValue
  | .str s => .jstr s
  | .int n => .jint n
  | .bool b => .jbool b
  | .float bits => .jfloat bits
  | .none => .null

/-- `Message.model_dump_json()` as a JSON value: the str-enum serializes
to its string value, the timestamp to a JSON number, the payload to a
JSON object. -/
def Message.model_dump_json (m : Message) : JValue :=
  .jobj [("type", .jstr m.type.value),
         ("session_id", .jstr m.session_id),
         ("timestamp", .jfloat m.timestamp),
         ("payload", .jobj (m.payload.map fun kv => (kv.1, kv.2.toJson)))]

/-- Reading a payload value back from JSON. -/
def JValue.toPValue : JValue → Option PValue
  | .null => some .none
  | .jbool b => some (.bool b)
  | .jint n => some (.int n)
  | .jfloat bits => some (.float bits)
  | .jstr s => some (.str s)
  | _ => Option.none

/-- Reading a JSON payload object back elementwise. -/
def jsonPayload : List (String × JValue) → Option (List (String × PValue))
  | [] => some []
  | (k, v) :: rest => do
      let v' ← v.toPValue
      let rest' ← jsonPayload rest
      pure ((k, v') :: rest')

/-- Object-member lookup in a parsed JSON object. -/
def jsonLookup (kvs : List (String × JValue)) (key : String) : Option JValue :=
  match kvs.find? (fun kv => kv.1 = key) with
  | some kv => some kv.2
  | Option.none => Option.none

/-- `Message.from_json`: `model_validate_json` of the parsed JSON value
against the envelope schema. -/
def message_from_json (v : JValue) : Option Message :=
  match v with
  | .jobj kvs => do
      let JValue.jstr tstr ← jsonLookup kvs "type" | Option.none
      let t ← MessageType.ofValue tstr
      let JValue.jstr sid ← jsonLookup kvs "session_id" | Option.none
      let JValue.jfloat ts ← jsonLookup kvs "timestamp" | Option.none
      let JValue.jobj pl ← jsonLookup kvs "payload" | Option.none
      let payload ← jsonPayload pl
      pure { type := t, session_id := sid, timestamp := ts, payload := payload }
  | _ => Option.none

/-- Number of UI events named `name` among the effects. -/
def countEvent (name : String) : List Effect → Nat
  | [] => 0
  | .emit n _ :: rest => (if n = name then 1 else 0) + countEvent name rest
  | _ :: rest => countEvent name rest

/-- The outbound wire messages among the effects (what actually travels to
the peer, as opposed to UI events and logs). -/
def sends : List Effect → List (Nat × Message)
  | [] => []
  | .send w m :: rest => (w, m) :: sends rest
  | _ :: rest => sends rest

/-! Concrete fixtures used by witnesses and counterexamples. -/

/-- A sample established peer on websocket handle 5. -/
def samplePeer : PeerInfo :=
  { name := .str "B", ip := .str "10.0.0.2", port := .int 8765, websocket := some 5 }

/-- A sample responder-side session with id "a" and passphrase "horse cat". -/
def sampleSession : ConnectionSession :=
  { session_id := "a", passphrase := "horse cat", peer_info := some samplePeer }

/-- A server in CONNECTED state with a live websocket and running ping task. -/
def stConnected : ServerState :=
  { device_name := "A", port := 8765, state := .connected,
    current_session := some sampleSession, peer := some samplePeer,
    websocket := some 5, ping_task := true, last_pong := 0 }

/-- A server in CHALLENGE_SENT state holding `sampleSession`. -/
def stChallengeSent : ServerState :=
  { device_name := "A", port := 8765, state := .challenge_sent,
    current_session := some sampleSession, peer := Option.none,
    websocket := Option.none, ping_task := false, last_pong := 0 }

/-- An initiator in AWAITING_CHALLENGE state holding a session with id "a". -/
def stAwaiting : ServerState :=
  { device_name := "A", port := 8765, state := .awaiting_challenge,
    current_session := some { session_id := "a", passphrase := "",
                              peer_info := some samplePeer },
    peer := some samplePeer, websocket := Option.none, ping_task := false,
    last_pong := 0 }

/-- An idle server in DISCONNECTED state. -/
def stDisconnected : ServerState :=
  { device_name := "A", port := 8765, state := .disconnected,
    current_session := Option.none, peer := Option.none,
    websocket := Option.none, ping_task := false, last_pong := 0 }

/-- A passphrase comparison standing in for the external
`validate_passphrase`: string equality with the stored secret. -/
def eqValidate (candidate : PValue) (stored : String) : Bool :=
  match candidate with
  | .str s => s = stored
  | _ => false

/-- A constant per-frame supply for loop fixtures. -/
def constSupply : Nat → Supply := fun _ => { gen := "pw", fresh := "u", now := 0 }

/-! Theorems. -/

/-- C10: for every ConnectionState other than DISCONNECTED, `connect_to`
is a silent no-op: the state, Session and Peer are unchanged, no
CONNECTION_REQUEST is sent, and no error event is emitted — the only
effect is a log line. -/
theorem connect_to_noop_when_not_disconnected (host : String) (port : Int)
    (fresh : String) (now : Nat) (result : Except String Nat) (st : ServerState)
    (h : st.state ≠ .disconnected) :
    connect_to host port fresh now result st =
      (st, [Effect.log "Already connected or connecting"]) := by
  simp [connect_to, h]

/-- Witness for `connect_to_noop_when_not_disconnected` at a CONNECTED state. -/
theorem connect_to_noop_when_not_disconnected_witness :
    connect_to "10.0.0.2" 8765 "u" 0 (Except.ok 7) stConnected =
      (stConnected, [Effect.log "Already connected or connecting"]) :=
  connect_to_noop_when_not_disconnected "10.0.0.2" 8765 "u" 0 (Except.ok 7)
    stConnected (by decide)

/-- C7: the responder never transmits the generated secret.  For any two
passphrases the provider could generate, `_handle_connection_request`
emits exactly the same outbound wire messages (the reply is independent of
the secret), and the CHALLENGE_RESPONSE payload has only the keys
`receiver_name` and `message` — no passphrase field. -/
theorem responder_never_transmits_secret (gen1 gen2 fresh : String) (now : Nat)
    (st : ServerState) (m : Message) (ws : Nat) :
    sends (handle_connection_request gen1 fresh now st m ws).2 =
      sends (handle_connection_request gen2 fresh now st m ws).2 ∧
    (challenge_response m.session_id st.device_name now).payload.map Prod.fst =
      ["receiver_name", "message"] := by
  constructor
  · by_cases h : st.state = .connected <;>
      simp [handle_connection_request, h, set_state, sends]
  · rfl

/-- C9: in CHALLENGE_SENT, an AUTH_ATTEMPT whose session id matches the
held Session but whose passphrase fails validation produces an outbound
AUTH_RESULT with success=false, the `auth_failed` event, the state going
back to DISCONNECTED (via `state_changed`), and the Session cleared. -/
theorem challenge_sent_wrong_secret (validate : PValue → String → Bool)
    (fresh : String) (now : Nat) (st : ServerState) (m : Message) (ws : Nat)
    (sess : ConnectionSession)
    (hstate : st.state = .challenge_sent)
    (hsess : st.current_session = some sess)
    (hsid : m.session_id = sess.session_id)
    (hval : validate (payloadGet m.payload "passphrase" (.str "")) sess.passphrase
              = false) :
    handle_auth_attempt validate fresh now st m ws =
      ({ st with state := .disconnected, current_session := Option.none },
       [.send ws (auth_result m.session_id false "Incorrect passphrase" now),
        .emit "auth_failed" [("reason", .str "Incorrect passphrase")],
        .emit "state_changed" [("old_state", .str "challenge_sent"),
                               ("new_state", .str "disconnected")]]) := by
  simp [handle_auth_attempt, hsess, hsid, hval, set_state, hstate,
        ConnectionState.value]

/-- Witness for `challenge_sent_wrong_secret`: concrete CHALLENGE_SENT
state, matching session id "a", wrong passphrase "wrong". -/
theorem challenge_sent_wrong_secret_witness :
    handle_auth_attempt eqValidate "u" 3 stChallengeSent
        (auth_attempt "a" "wrong" 3) 5 =
      ({ stChallengeSent with state := .disconnected,
                              current_session := Option.none },
       [.send 5 (auth_result "a" false "Incorrect passphrase" 3),
        .emit "auth_failed" [("reason", .str "Incorrect passphrase")],
        .emit "state_changed" [("old_state", .str "challenge_sent"),
                               ("new_state", .str "disconnected")]]) :=
  challenge_sent_wrong_secret eqValidate "u" 3 stChallengeSent
    (auth_attempt "a" "wrong" 3) 5 sampleSession (by decide) (by decide)
    (by decide) (by decide)

/-- C1 counterexample: in AWAITING_CHALLENGE (≠ DISCONNECTED), an inbound
CONNECTION_REQUEST is not rejected: the state moves to CHALLENGE_SENT, the
held Session is overwritten, and the reply is a CHALLENGE_RESPONSE, not an
ERROR — refuting the claim that every non-DISCONNECTED state replies
ALREADY_CONNECTED and stays untouched. -/
theorem connection_request_accepted_while_awaiting :
    stAwaiting.state ≠ .disconnected ∧
    (handle_connection_request "pw" "u" 0 stAwaiting
        { type := .connection_request, session_id := "b", timestamp := 0,
          payload := [("sender_name", .str "C")] } 6).1.state = .challenge_sent ∧
    (handle_connection_request "pw" "u" 0 stAwaiting
        { type := .connection_request, session_id := "b", timestamp := 0,
          payload := [("sender_name", .str "C")] } 6).1.current_session ≠
      stAwaiting.current_session ∧
    sends (handle_connection_request "pw" "u" 0 stAwaiting
        { type := .connection_request, session_id := "b", timestamp := 0,
          payload := [("sender_name", .str "C")] } 6).2 =
      [(6, challenge_response "b" "A" 0)] := by
  decide

/-- C1 amended: an inbound CONNECTION_REQUEST is rejected with ERROR
`ALREADY_CONNECTED` — leaving state, Session and Peer exactly as they
were — precisely when the state is CONNECTED. -/
theorem connection_request_rejected_when_connected (gen fresh : String)
    (now : Nat) (st : ServerState) (m : Message) (ws : Nat)
    (h : st.state = .connected) :
    handle_connection_request gen fresh now st m ws =
      (st, [.send ws (error_msg "Already connected to another peer"
                        "ALREADY_CONNECTED" fresh now)]) := by
  simp [handle_connection_request, h]

/-- Witness for `connection_request_rejected_when_connected` at a
CONNECTED state. -/
theorem connection_request_rejected_when_connected_witness :
    handle_connection_request "pw" "u" 0 stConnected
        { type := .connection_request, session_id := "b", timestamp := 0,
          payload := [("sender_name", .str "C")] } 6 =
      (stConnected, [.send 6 (error_msg "Already connected to another peer"
                                "ALREADY_CONNECTED" "u" 0)]) :=
  connection_request_rejected_when_connected "pw" "u" 0 stConnected
    { type := .connection_request, session_id := "b", timestamp := 0,
      payload := [("sender_name", .str "C")] } 6 (by decide)

/-- C3 counterexample: with a held Session of id "a", an inbound
CHALLENGE_RESPONSE carrying session id "b" is never checked: in
AWAITING_CHALLENGE the state advances to AWAITING_AUTH_INPUT and no ERROR
(and no message at all) is sent — refuting the claim for
CHALLENGE_RESPONSE. -/
theorem challenge_response_session_id_unchecked :
    stAwaiting.current_session.map ConnectionSession.session_id = some "a" ∧
    (handle_challenge_response stAwaiting
        { type := .challenge_response, session_id := "b", timestamp := 0,
          payload := [] }).1.state = .awaiting_auth_input ∧
    sends (handle_challenge_response stAwaiting
        { type := .challenge_response, session_id := "b", timestamp := 0,
          payload := [] }).2 = [] := by
  decide

/-- C3 amended: the session-isolation property holds for AUTH_ATTEMPT
only: with a held Session, an AUTH_ATTEMPT whose session id differs leaves
the state (indeed the whole server state) unchanged and the single reply
is ERROR `INVALID_SESSION`.  CHALLENGE_RESPONSE is not compared against
the held session id. -/
theorem auth_attempt_invalid_session (validate : PValue → String → Bool)
    (fresh : String) (now : Nat) (st : ServerState) (m : Message) (ws : Nat)
    (sess : ConnectionSession)
    (hsess : st.current_session = some sess)
    (hsid : m.session_id ≠ sess.session_id) :
    handle_auth_attempt validate fresh now st m ws =
      (st, [.send ws (error_msg "Invalid session" "INVALID_SESSION" fresh now)]) := by
  simp [handle_auth_attempt, hsess, hsid]

/-- Witness for `auth_attempt_invalid_session`: CHALLENGE_SENT state with
session "a", attempt with session id "zzz". -/
theorem auth_attempt_invalid_session_witness :
    handle_auth_attempt eqValidate "u" 3 stChallengeSent
        (auth_attempt "zzz" "horse cat" 3) 5 =
      (stChallengeSent,
       [.send 5 (error_msg "Invalid session" "INVALID_SESSION" "u" 3)]) :=
  auth_attempt_invalid_session eqValidate "u" 3 stChallengeSent
    (auth_attempt "zzz" "horse cat" 3) 5 sampleSession (by decide) (by decide)

/-- C4 counterexample: two successive `disconnect_peer` calls from a
CONNECTED state emit the `disconnected` event twice (not exactly once),
because `_handle_disconnect` emits unconditionally. -/
theorem double_disconnect_fires_twice :
    countEvent "disconnected"
        ((disconnect_peer "u1" 1 stConnected).2 ++
         (disconnect_peer "u2" 2 (disconnect_peer "u1" 1 stConnected).1).2) = 2 ∧
    (disconnect_peer "u2" 2 (disconnect_peer "u1" 1 stConnected).1).1.state =
      .disconnected := by
  decide

/-- C4 amended: every `disconnect_peer` call leaves the state at
DISCONNECTED and emits exactly one `disconnected` event per call — the
emission is unconditional, so a second call (or a call after a
transport-close already ran the disconnect path) emits a second event. -/
theorem disconnect_peer_unconditional (fresh : String) (now : Nat)
    (st : ServerState) :
    (disconnect_peer fresh now st).1.state = .disconnected ∧
    countEvent "disconnected" (disconnect_peer fresh now st).2 = 1 := by
  cases h : st.websocket <;> cases hp : st.ping_task <;>
    simp [disconnect_peer, handle_disconnect, set_state, countEvent, h, hp]

/-- C5 counterexample: (AUTH_RESULT, DISCONNECTED) and (PING,
DISCONNECTED) are not in the §4.3 table, yet handling them is not a
no-op: a success AUTH_RESULT drives the state to CONNECTED, and a PING is
answered with an outbound PONG. -/
theorem unmatched_pairs_not_ignored :
    (handle_message eqValidate "pw" "u" 0 stDisconnected
        { type := .auth_result, session_id := "z", timestamp := 0,
          payload := [("success", .bool true)] } 5).1.state = .connected ∧
    sends (handle_message eqValidate "pw" "u" 0 stDisconnected
        { type := .ping, session_id := "s", timestamp := 0,
          payload := [] } 5).2 = [(5, pong_msg "s" 0)] := by
  decide

/-- C5 amended: only message types with no dispatch branch
(FILE_TRANSFER, KEYBOARD_INPUT, CONTROLLER_INPUT, AUDIO_STREAM, and
inbound ERROR, for which `_handle_message` has no case either) are logged
and ignored with the state unchanged; the typed handlers are not
state-guarded (AUTH_RESULT acts in every state, PING is answered in every
state). -/
theorem undispatched_types_logged_and_ignored (validate : PValue → String → Bool)
    (gen fresh : String) (now : Nat) (st : ServerState) (m : Message) (ws : Nat)
    (h : m.type = .file_transfer ∨ m.type = .keyboard_input ∨
         m.type = .controller_input ∨ m.type = .audio_stream ∨
         m.type = .error) :
    handle_message validate gen fresh now st m ws =
      (st, [.log ("Unhandled message type: " ++ m.type.value)]) := by
  rcases h with h | h | h | h | h <;> simp [handle_message, h, MessageType.value]

/-- Witness for `undispatched_types_logged_and_ignored` on a FILE_TRANSFER
message in CONNECTED state. -/
theorem undispatched_types_logged_and_ignored_witness :
    handle_message eqValidate "pw" "u" 0 stConnected
        { type := .file_transfer, session_id := "s", timestamp := 0,
          payload := [] } 5 =
      (stConnected, [.log "Unhandled message type: file_transfer"]) :=
  undispatched_types_logged_and_ignored eqValidate "pw" "u" 0 stConnected
    { type := .file_transfer, session_id := "s", timestamp := 0, payload := [] }
    5 (Or.inl rfl)

/-- C6 counterexample: from CONNECTED, a malformed frame followed by a
well-formed PING: the decode failure does not merely drop the frame — the
state is forced to DISCONNECTED, the Session is cleared, a `disconnected`
event fires, and the subsequent PING is never processed (no PONG is
sent) — refuting "state/Session/Peer unchanged and processing continues". -/
theorem malformed_frame_kills_connection :
    (handle_connection eqValidate constSupply stConnected 5 0
        [Frame.malformed, Frame.ok (ping_msg "s" 0)]).1.state = .disconnected ∧
    (handle_connection eqValidate constSupply stConnected 5 0
        [Frame.malformed, Frame.ok (ping_msg "s" 0)]).1.current_session =
      Option.none ∧
    countEvent "disconnected"
        (handle_connection eqValidate constSupply stConnected 5 0
          [Frame.malformed, Frame.ok (ping_msg "s" 0)]).2 = 1 ∧
    sends (handle_connection eqValidate constSupply stConnected 5 0
        [Frame.malformed, Frame.ok (ping_msg "s" 0)]).2 = [] := by
  decide

/-- C6 amended: a frame that fails to decode is logged and the process
does not crash, but the receive loop aborts into the disconnect path:
state DISCONNECTED, Session and Peer cleared, exactly one `disconnected`
event, nothing sent — and all subsequent frames of that connection are
ignored (the result does not depend on them). -/
theorem malformed_frame_aborts_receive_loop (validate : PValue → String → Bool)
    (supply : Nat → Supply) (st : ServerState) (ws k : Nat)
    (rest : List Frame) :
    (handle_connection validate supply st ws k (Frame.malformed :: rest)).1.state
        = .disconnected ∧
    (handle_connection validate supply st ws k
        (Frame.malformed :: rest)).1.current_session = Option.none ∧
    (handle_connection validate supply st ws k
        (Frame.malformed :: rest)).1.peer = Option.none ∧
    countEvent "disconnected"
        (handle_connection validate supply st ws k
          (Frame.malformed :: rest)).2 = 1 ∧
    sends (handle_connection validate supply st ws k
        (Frame.malformed :: rest)).2 = [] ∧
    handle_connection validate supply st ws k (Frame.malformed :: rest) =
      handle_connection validate supply st ws k [Frame.malformed] := by
  cases hp : st.ping_task <;>
    simp [handle_connection, handle_disconnect, set_state, countEvent, sends, hp]

/-- C2: the heartbeat timeout can never fire.  Each loop iteration itself
overwrites `_last_pong` with the PING send time before sleeping 5 units,
so at the check `time.time() - self._last_pong > 10` the elapsed time is
at most 5 — even when the peer sends no PONG at all.  Starting CONNECTED
with a live socket and no PONG ever observed, the loop runs any number of
iterations without transitioning to DISCONNECTED and without a single
`disconnected` event, contradicting the claimed heartbeat liveness. -/
theorem ping_timeout_never_fires (freshs : Nat → String) (fuel k t : Nat)
    (st : ServerState) (w : Nat)
    (hw : st.websocket = some w) (hs : st.state = .connected) :
    (ping_loop freshs (fun _ => []) fuel k t st).1.state = .connected ∧
    countEvent "disconnected" (ping_loop freshs (fun _ => []) fuel k t st).2
      = 0 := by
  induction fuel generalizing k t st with
  | zero => simp [ping_loop, hs, countEvent]
  | succ n ih =>
      have h5 : t + 5 - t = 5 := by omega
      have hrec := ih (k + 1) (t + 5) { st with last_pong := t }
        (by simpa using hw) (by simpa using hs)
      simp only [ping_loop, hw, hs, if_pos rfl, ping_iteration, List.foldl,
        h5] at *
      simp only [show ¬ (5 > 10) by omega, if_false, ite_false] at *
      simp [countEvent, hrec.1, hrec.2]

/-- Witness for `ping_timeout_never_fires`: three iterations from the
concrete CONNECTED state with no PONGs — still CONNECTED, no
`disconnected` event. -/
theorem ping_timeout_never_fires_witness :
    (ping_loop (fun _ => "u") (fun _ => []) 3 0 0 stConnected).1.state
        = .connected ∧
    countEvent "disconnected"
        (ping_loop (fun _ => "u") (fun _ => []) 3 0 0 stConnected).2 = 0 :=
  ping_timeout_never_fires (fun _ => "u") 3 0 0 stConnected 5 (by decide)
    (by decide)

/-- Reading back the msgpack embedding of a payload value is the identity. -/
theorem PValue.toPValue_toMP (v : PValue) : v.toMP.toPValue = some v := by
  cases v <;> rfl

/-- Reading back the msgpack embedding of a payload dict is the identity. -/
theorem mpPayload_map (pl : List (String × PValue)) :
    mpPayload (pl.map fun kv => (MPValue.str kv.1, kv.2.toMP)) = some pl := by
  induction pl with
  | nil => rfl
  | cons kv rest ih => simp [mpPayload, PValue.toPValue_toMP, ih]

/-- Reading back the JSON embedding of a payload value is the identity. -/
theorem PValue.toPValue_toJson (v : PValue) : v.toJson.toPValue = some v := by
  cases v <;> rfl

/-- Reading back the JSON embedding of a payload object is the identity. -/
theorem jsonPayload_map (pl : List (String × PValue)) :
    jsonPayload (pl.map fun kv => (kv.1, kv.2.toJson)) = some pl := by
  induction pl with
  | nil => rfl
  | cons kv rest ih => simp [jsonPayload, PValue.toPValue_toJson, ih]

/-- Parsing the string value of a message type tag recovers the tag. -/
theorem MessageType.ofValue_value (t : MessageType) :
    MessageType.ofValue t.value = some t := by
  cases t <;> rfl

/-- C8: round-trip of the wire envelope.  For every well-formed Message,
validating the dumped value tree recovers the message exactly, in both
the msgpack data model (`to_bytes`/`from_bytes`) and the JSON data model
(`to_json`/`from_json`); serialization of those trees to bytes/text is
the external msgpack/JSON library, an inverse pair on its data model. -/
theorem message_codec_roundtrip (m : Message) :
    message_from_mp m.model_dump = some m ∧
    message_from_json m.model_dump_json = some m := by
  constructor
  · simp [message_from_mp, Message.model_dump, mpLookup, MPValue.isStr,
          List.find?, MessageType.ofValue_value, mpPayload_map]
  · simp [message_from_json, Message.model_dump_json, jsonLookup,
          List.find?, MessageType.ofValue_value, jsonPayload_map]

end DeckLink
